import Mathlib

/-!
Shallow embedding of the surecheck-ai claim-processing pipeline.

The pipeline (src/ai) turns a batch of uploaded documents into a final
adjudication: a text-extraction cascade (src/utils/pdf_loader.py), a
classifier stage (src/ai/agent/classification_agent.py), three type-routed
extraction branches (bill_agent.py, id_agent.py, discharge_agent.py), a
state accumulator (src/ai/graph/state.py), and an adjudication stage
(claim_agent.py), sequenced by a fixed LangGraph workflow
(src/ai/graph/workflow.py).

Language-model inference is modelled as oracle functions returning
`Except LLMError α`: `.ok` for a schema-conformant response, `.error` for a
raised exception (carrying `str(e)` and `type(e).__name__`).  Each node is
translated together with the list of inference requests it issues, so that
"no inference call" and "one request per document" properties can be stated.
-/

namespace SureCheck

/-- Document types, from src/schema/enum.py (DocumentType). -/
inductive DocumentType
  | bill
  | discharge_summary
  | id_card
  | pharmacy_bill
  | claim_form
  | other
deriving DecidableEq, Repr, Inhabited

/-- The string value of each enum member, as in the Python `str` enum. -/
def DocumentType.value : DocumentType → String
  | .bill => "bill"
  | .discharge_summary => "discharge_summary"
  | .id_card => "id_card"
  | .pharmacy_bill => "pharmacy_bill"
  | .claim_form => "claim_form"
  | .other => "other"

/-- Claim statuses, from src/schema/enum.py (DocStatus). -/
inductive DocStatus
  | pending
  | processing
  | completed
  | failed
  | approved
  | rejected
  | manual_review
deriving DecidableEq, Repr, Inhabited

/-- Issue severities, from src/schema/enum.py (Severity). -/
inductive Severity
  | low
  | medium
  | high
deriving DecidableEq, Repr, Inhabited

/-- A value stored in an ExtractedDocument's `data` mapping: extracted
fields are strings, numbers (Python float, modelled as a rational), or
lists of strings (the discharge `procedures` field). -/
inductive FieldValue
  | str (s : String)
  | num (q : Rat)
  | strlist (xs : List String)
deriving DecidableEq, Repr

/-- A raised Python exception as seen by an `except Exception as e` handler:
`msg` is `str(e)` and `etype` is `type(e).__name__`. -/
structure LLMError where
  msg : String
  etype : String
deriving DecidableEq, Repr

/-- Input document before classification, src/ai/graph/state.py (DocumentInput). -/
structure DocumentInput where
  filename : String
  raw_text : String
  file_size : Option Int := none
  upload_timestamp : Option String := none
deriving DecidableEq, Repr

/-- Document after classification, src/ai/graph/state.py (ClassifiedDocument). -/
structure ClassifiedDocument where
  filename : String
  raw_text : String
  doc_type : DocumentType
  reasoning : String
  confidence : Rat
deriving DecidableEq, Repr

/-- Document after data extraction, src/ai/graph/state.py (ExtractedDocument).
`data` is the `dict[str, Any]` payload, modelled as an association list. -/
structure ExtractedDocument where
  filename : String
  doc_type : DocumentType
  raw_text : String
  data : List (String × FieldValue)
  extraction_timestamp : Option String := none
deriving DecidableEq, Repr

/-- Single validation issue, src/schema/claim_dto.py (ValidationIssue). -/
structure ValidationIssue where
  severity : Severity
  message : String
  field : Option String := none
  doc_type : Option DocumentType := none
deriving DecidableEq, Repr

/-- Validation report, src/schema/claim_dto.py (ValidationReport =
ValidationResponse + status + reason); the type used by claim_agent.py. -/
structure ValidationReport where
  missing_documents : List DocumentType := []
  discrepancies : List ValidationIssue := []
  validation_timestamp : Option String := none
  status : DocStatus
  reason : String
deriving DecidableEq, Repr

/-- Main graph state, src/ai/graph/state.py (ClaimState); metadata fields
that no node reads or writes are omitted. -/
structure ClaimState where
  inputs : List DocumentInput := []
  classified_docs : List ClassifiedDocument := []
  extracted_documents : List ExtractedDocument := []
  validation_report : Option ValidationReport := none
deriving Repr

/-- The accumulator merge for `extracted_documents`, declared in
src/ai/graph/state.py as `Annotated[list[ExtractedDocument], operator.add]`:
Python list `+` is concatenation. -/
def mergeExtracted (xs ys : List ExtractedDocument) : List ExtractedDocument :=
  xs ++ ys

/-- Structured output schema of the classifier, src/ai/graph/state.py
(ClassificationSchema). -/
structure ClassificationSchema where
  doc_type : DocumentType
  confidence : Rat
  reasoning : String
deriving DecidableEq, Repr

/-- Structured output schema of the bill extractor, src/ai/graph/state.py
(BillSchema). -/
structure BillSchema where
  invoice_number : Option String := none
  hospital_name : Option String := none
  bill_date : Option String := none
  total_amount : Option Rat := none
  currency : String := "USD"
deriving DecidableEq, Repr

/-- Structured output schema of the ID-card extractor, src/ai/graph/state.py
(IDCardSchema). -/
structure IDCardSchema where
  full_name : Option String := none
  policy_number : Option String := none
  date_of_birth : Option String := none
  group_number : Option String := none
deriving DecidableEq, Repr

/-- Structured output schema of the discharge extractor,
src/ai/graph/state.py (DischargeSummarySchema). -/
structure DischargeSummarySchema where
  patient_name : Option String := none
  admission_date : Option String := none
  discharge_date : Option String := none
  diagnosis : Option String := none
  procedures : List String := []
deriving DecidableEq, Repr

/-- One entry of `model_dump(exclude_none=True)` for an optional string
field: present with its key iff the field is not None. -/
def optStrField (k : String) : Option String → List (String × FieldValue)
  | none => []
  | some v => [(k, FieldValue.str v)]

/-- One entry of `model_dump(exclude_none=True)` for an optional numeric
field: present with its key iff the field is not None. -/
def optNumField (k : String) : Option Rat → List (String × FieldValue)
  | none => []
  | some v => [(k, FieldValue.num v)]

/-- `response.model_dump(exclude_none=True)` for BillSchema: optional
fields appear only when set; `currency` is not optional and always
appears; fields in declaration order. -/
def BillSchema.dumpExcludeNone (r : BillSchema) : List (String × FieldValue) :=
  optStrField "invoice_number" r.invoice_number ++
  optStrField "hospital_name" r.hospital_name ++
  optStrField "bill_date" r.bill_date ++
  optNumField "total_amount" r.total_amount ++
  [("currency", FieldValue.str r.currency)]

/-- `response.model_dump(exclude_none=True)` for IDCardSchema. -/
def IDCardSchema.dumpExcludeNone (r : IDCardSchema) : List (String × FieldValue) :=
  optStrField "full_name" r.full_name ++
  optStrField "policy_number" r.policy_number ++
  optStrField "date_of_birth" r.date_of_birth ++
  optStrField "group_number" r.group_number

/-- `response.model_dump(exclude_none=True)` for DischargeSummarySchema:
`procedures` is a non-optional list (default empty) and always appears. -/
def DischargeSummarySchema.dumpExcludeNone (r : DischargeSummarySchema) :
    List (String × FieldValue) :=
  optStrField "patient_name" r.patient_name ++
  optStrField "admission_date" r.admission_date ++
  optStrField "discharge_date" r.discharge_date ++
  optStrField "diagnosis" r.diagnosis ++
  [("procedures", FieldValue.strlist r.procedures)]

/-- Python `s.strip()`: the string with leading and trailing whitespace
removed.  Modelled over the character list so it evaluates by `decide`. -/
def pyStrip (s : String) : String :=
  ⟨((s.data.dropWhile Char.isWhitespace).reverse.dropWhile Char.isWhitespace).reverse⟩

/-- Python `s[:n]`: the first `n` characters of `s`. -/
def pyTake (s : String) (n : Nat) : String :=
  ⟨s.data.take n⟩

/-- The HumanMessage content built by classification_node
(classification_agent.py line 60). -/
def classificationUserMessage (filename text : String) : String :=
  "Document Filename: " ++ filename ++ "\n\nDocument Content:\n" ++ text

/-- The HumanMessage content built by bill_extraction_node
(bill_agent.py lines 65-69). -/
def billUserMessage (dt : DocumentType) (filename text : String) : String :=
  "Document Type: " ++ dt.value ++ "\nFilename: " ++ filename ++
  "\n\nDocument Content:\n" ++ text

/-- The HumanMessage content built by id_extraction_node
(id_agent.py lines 63-66). -/
def idUserMessage (filename text : String) : String :=
  "Document Type: Insurance ID Card\nFilename: " ++ filename ++
  "\n\nDocument Content:\n" ++ text

/-- The HumanMessage content built by discharge_extraction_node
(discharge_agent.py lines 71-74). -/
def dischargeUserMessage (filename text : String) : String :=
  "Document Type: Discharge Summary\nFilename: " ++ filename ++
  "\n\nDocument Content:\n" ++ text

/-! ## Classifier stage (src/ai/agent/classification_agent.py) -/

/-- The loop body of classification_node for one DocumentInput
(classification_agent.py lines 37-91): short-circuit when the text is
falsy or its stripped length is under 10; otherwise issue one structured
classification request on the text truncated to 10,000 characters, and on
failure fall back to an `other`/0.0 classification carrying the error.
Returns the ClassifiedDocument together with the inference-request
contents issued for this document. -/
def classifyDoc (classify : String → Except LLMError ClassificationSchema)
    (d : DocumentInput) : ClassifiedDocument × List String :=
  if d.raw_text = "" ∨ (pyStrip d.raw_text).length < 10 then
    (⟨d.filename, d.raw_text, .other, "Insufficient text content extracted.", 0⟩, [])
  else
    let truncated_text := pyTake d.raw_text 10000
    let content := classificationUserMessage d.filename truncated_text
    match classify content with
    | .ok r => (⟨d.filename, d.raw_text, r.doc_type, r.reasoning, r.confidence⟩, [content])
    | .error e =>
        (⟨d.filename, d.raw_text, .other, "Classification failed: " ++ e.msg, 0⟩, [content])

/-- The `for doc_input in state.inputs` loop of classification_node:
accumulates one ClassifiedDocument per input, in order, together with all
inference-request contents issued. -/
def classifyAll (classify : String → Except LLMError ClassificationSchema) :
    List DocumentInput → List ClassifiedDocument × List String
  | [] => ([], [])
  | d :: rest =>
      let hd := classifyDoc classify d
      let tl := classifyAll classify rest
      (hd.1 :: tl.1, hd.2 ++ tl.2)

/-- classification_node (classification_agent.py lines 18-93): classifies
every DocumentInput of the state; the node's state update is the
`classified_docs` list. -/
def classification_node (classify : String → Except LLMError ClassificationSchema)
    (state : ClaimState) : List ClassifiedDocument × List String :=
  classifyAll classify state.inputs

/-! ## Type-routed extraction branches (bill_agent.py, id_agent.py,
discharge_agent.py) -/

/-- The filter of bill_extraction_node (bill_agent.py lines 40-44):
`doc.doc_type in [DocumentType.BILL, DocumentType.PHARMACY_BILL]`. -/
def isBillTarget (d : ClassifiedDocument) : Bool :=
  decide (d.doc_type = DocumentType.bill ∨ d.doc_type = DocumentType.pharmacy_bill)

/-- The filter of id_extraction_node (id_agent.py line 42). -/
def isIdTarget (d : ClassifiedDocument) : Bool :=
  decide (d.doc_type = DocumentType.id_card)

/-- The filter of discharge_extraction_node (discharge_agent.py lines 48-50). -/
def isDischargeTarget (d : ClassifiedDocument) : Bool :=
  decide (d.doc_type = DocumentType.discharge_summary)

/-- The `data` payload emitted when an extraction request raises
(bill_agent.py lines 103-106 and the identical handlers of the other two
branches). -/
def extractionErrorData (e : LLMError) : List (String × FieldValue) :=
  [("extraction_error", FieldValue.str e.msg), ("error_type", FieldValue.str e.etype)]

/-- The loop body of bill_extraction_node for one target document
(bill_agent.py lines 52-109): one structured-extraction request on the
text truncated to 8,000 characters; on success the data is
`model_dump(exclude_none=True)`, on failure the error payload.  Returns
the ExtractedDocument with the request contents issued. -/
def extractOneBill (billExtract : String → Except LLMError BillSchema)
    (ts : String) (doc : ClassifiedDocument) : ExtractedDocument × List String :=
  let content := billUserMessage doc.doc_type doc.filename (pyTake doc.raw_text 8000)
  match billExtract content with
  | .ok r => (⟨doc.filename, doc.doc_type, doc.raw_text, r.dumpExcludeNone, some ts⟩, [content])
  | .error e =>
      (⟨doc.filename, doc.doc_type, doc.raw_text, extractionErrorData e, some ts⟩, [content])

/-- The `for doc in target_docs` loop of bill_extraction_node. -/
def extractAllBills (billExtract : String → Except LLMError BillSchema) (ts : String) :
    List ClassifiedDocument → List ExtractedDocument × List String
  | [] => ([], [])
  | d :: rest =>
      let hd := extractOneBill billExtract ts d
      let tl := extractAllBills billExtract ts rest
      (hd.1 :: tl.1, hd.2 ++ tl.2)

/-- bill_extraction_node (bill_agent.py lines 19-111): filter to bill and
pharmacy-bill documents; with no match, return an empty contribution
without touching the model; otherwise extract each target document. -/
def bill_extraction_node (billExtract : String → Except LLMError BillSchema)
    (ts : String) (state : ClaimState) : List ExtractedDocument × List String :=
  let target_docs := state.classified_docs.filter isBillTarget
  if target_docs.isEmpty then ([], [])
  else extractAllBills billExtract ts target_docs

/-- The loop body of id_extraction_node for one target document
(id_agent.py lines 50-101); truncation limit 5,000 characters. -/
def extractOneId (idExtract : String → Except LLMError IDCardSchema)
    (ts : String) (doc : ClassifiedDocument) : ExtractedDocument × List String :=
  let content := idUserMessage doc.filename (pyTake doc.raw_text 5000)
  match idExtract content with
  | .ok r => (⟨doc.filename, doc.doc_type, doc.raw_text, r.dumpExcludeNone, some ts⟩, [content])
  | .error e =>
      (⟨doc.filename, doc.doc_type, doc.raw_text, extractionErrorData e, some ts⟩, [content])

/-- The `for doc in target_docs` loop of id_extraction_node. -/
def extractAllIds (idExtract : String → Except LLMError IDCardSchema) (ts : String) :
    List ClassifiedDocument → List ExtractedDocument × List String
  | [] => ([], [])
  | d :: rest =>
      let hd := extractOneId idExtract ts d
      let tl := extractAllIds idExtract ts rest
      (hd.1 :: tl.1, hd.2 ++ tl.2)

/-- id_extraction_node (id_agent.py lines 20-103). -/
def id_extraction_node (idExtract : String → Except LLMError IDCardSchema)
    (ts : String) (state : ClaimState) : List ExtractedDocument × List String :=
  let target_docs := state.classified_docs.filter isIdTarget
  if target_docs.isEmpty then ([], [])
  else extractAllIds idExtract ts target_docs

/-- The loop body of discharge_extraction_node for one target document
(discharge_agent.py lines 58-110); truncation limit 15,000 characters. -/
def extractOneDischarge (dischargeExtract : String → Except LLMError DischargeSummarySchema)
    (ts : String) (doc : ClassifiedDocument) : ExtractedDocument × List String :=
  let content := dischargeUserMessage doc.filename (pyTake doc.raw_text 15000)
  match dischargeExtract content with
  | .ok r => (⟨doc.filename, doc.doc_type, doc.raw_text, r.dumpExcludeNone, some ts⟩, [content])
  | .error e =>
      (⟨doc.filename, doc.doc_type, doc.raw_text, extractionErrorData e, some ts⟩, [content])

/-- The `for doc in target_docs` loop of discharge_extraction_node. -/
def extractAllDischarges (dischargeExtract : String → Except LLMError DischargeSummarySchema)
    (ts : String) : List ClassifiedDocument → List ExtractedDocument × List String
  | [] => ([], [])
  | d :: rest =>
      let hd := extractOneDischarge dischargeExtract ts d
      let tl := extractAllDischarges dischargeExtract ts rest
      (hd.1 :: tl.1, hd.2 ++ tl.2)

/-- discharge_extraction_node (discharge_agent.py lines 26-112). -/
def discharge_extraction_node
    (dischargeExtract : String → Except LLMError DischargeSummarySchema)
    (ts : String) (state : ClaimState) : List ExtractedDocument × List String :=
  let target_docs := state.classified_docs.filter isDischargeTarget
  if target_docs.isEmpty then ([], [])
  else extractAllDischarges dischargeExtract ts target_docs

/-! ## Adjudication stage (src/ai/agent/claim_agent.py) -/

/-- One entry of the context payload built by claim_validation_node
(claim_agent.py lines 48-52). -/
structure ContextEntry where
  file_name : String
  file_type : DocumentType
  extracted_data : List (String × FieldValue)
deriving DecidableEq, Repr

/-- The `context_data` list built from `state.extracted_documents`
(claim_agent.py lines 48-52). -/
def contextData (state : ClaimState) : List ContextEntry :=
  state.extracted_documents.map (fun doc => ⟨doc.filename, doc.doc_type, doc.data⟩)

/-- The fixed fallback reason synthesized on validation failure
(claim_agent.py line 84). -/
def validationFallbackReason : String :=
  "Validation could not be completed due to an internal error. Please review manually."

/-- claim_validation_node (claim_agent.py lines 27-91): build the context
payload, request a structured ValidationReport, restamp the timestamp; on
any raised inference error, synthesize a manual-review report with the
fixed reason, no missing documents, and one high-severity discrepancy
citing the failure. -/
def claim_validation_node
    (validate : List ContextEntry → Except LLMError ValidationReport)
    (ts : String) (state : ClaimState) : ValidationReport :=
  match validate (contextData state) with
  | .ok r =>
      { status := r.status, reason := r.reason, discrepancies := r.discrepancies,
        missing_documents := r.missing_documents, validation_timestamp := some ts }
  | .error e =>
      { status := .manual_review,
        reason := validationFallbackReason,
        discrepancies := [⟨Severity.high, "AI Validation Error: " ++ e.msg, none, none⟩],
        missing_documents := [],
        validation_timestamp := some ts }

/-! ## Text-extraction cascade (src/utils/pdf_loader.py)

A parsed PDF is a list of pages; `PdfPage.text` is what `page.get_text()`
returns.  Opening the byte stream may raise (`fitz.open`), as may
`pymupdf4llm.to_markdown`; both are modelled as `Except` inputs.  The
vision model transcribes one rendered page image. -/

/-- One page of an opened PDF: `text` is the digital text
(`page.get_text()`). -/
structure PdfPage where
  text : String
deriving DecidableEq, Repr, Inhabited

/-- An opened PDF document (`fitz.Document`): its list of pages. -/
structure PdfDoc where
  pages : List PdfPage
deriving DecidableEq, Repr

/-- One vision-transcription request issued by the OCR fallback:
`page_index` is the zero-based page rendered; `zoom` the render scale
(`fitz.Matrix(2, 2)` renders at 2x). -/
structure OcrCall where
  page_index : Nat
  zoom : Nat
deriving DecidableEq, Repr

/-- The truncation notice appended past the fifth page
(pdf_loader.py line 33). -/
def ocrTruncationNotice : String :=
  "\n...[Remaining pages truncated]..."

/-- The page marker prefixed to each transcribed page
(pdf_loader.py line 56); `i` is the zero-based index. -/
def ocrPageMarker (i : Nat) : String :=
  "--- PAGE " ++ toString (i + 1) ++ " (OCR) ---"

/-- The `for i, page in enumerate(doc)` loop of _perform_ai_ocr
(pdf_loader.py lines 31-58): starting at index `i`, stop with the
truncation notice once `i >= 5`; otherwise render the page, issue one
vision request, and append the marked transcription on success or nothing
on failure.  Returns the accumulated `full_text` pieces and the vision
requests issued. -/
def ocrLoop (vision : PdfPage → Except LLMError String) :
    List PdfPage → Nat → List String × List OcrCall
  | [], _ => ([], [])
  | page :: rest, i =>
      if 5 ≤ i then ([ocrTruncationNotice], [])
      else
        let tl := ocrLoop vision rest (i + 1)
        match vision page with
        | .ok content => ((ocrPageMarker i ++ "\n" ++ content) :: tl.1, ⟨i, 2⟩ :: tl.2)
        | .error _ => (tl.1, ⟨i, 2⟩ :: tl.2)

/-- _perform_ai_ocr (pdf_loader.py lines 11-60): run the page loop from
index 0 and join the pieces with newlines. -/
def perform_ai_ocr (vision : PdfPage → Except LLMError String)
    (doc : PdfDoc) : String × List OcrCall :=
  let r := ocrLoop vision doc.pages 0
  (String.intercalate "\n" r.1, r.2)

/-- The environment of one extract_text_from_bytes call: the outcome of
`fitz.open` on the given bytes, the behaviour of `pymupdf4llm.to_markdown`,
and the vision model used by the OCR fallback. -/
structure PdfEnv where
  openResult : Except String PdfDoc
  toMarkdownResult : PdfDoc → Except String String
  vision : PdfPage → Except LLMError String

/-- `doc[0].get_text()` (pdf_loader.py line 91), read on a non-empty
document. -/
def firstPageText (doc : PdfDoc) : String :=
  (doc.pages.headD default).text

/-- extract_text_from_bytes (pdf_loader.py lines 63-119): zero pages or a
failed open yield the empty string; a first page with under 50 stripped
characters of digital text goes to vision OCR; otherwise the markdown
extraction result is returned on success, and on a raised markdown error
the plain per-page concatenation is returned when its stripped length is
at least 50, else vision OCR. -/
def extract_text_from_bytes (env : PdfEnv) : String :=
  match env.openResult with
  | .error _ => ""
  | .ok doc =>
      if doc.pages.length = 0 then ""
      else
        let first_page_text := firstPageText doc
        let is_scanned := (pyStrip first_page_text).length < 50
        if is_scanned then (perform_ai_ocr env.vision doc).1
        else
          match env.toMarkdownResult doc with
          | .ok md_text => md_text
          | .error _ =>
              let raw_text := String.join (doc.pages.map PdfPage.text)
              if (pyStrip raw_text).length < 50 then (perform_ai_ocr env.vision doc).1
              else raw_text

/-! ## Workflow graph (src/ai/graph/workflow.py)

START → classifier → /bill_extractor, discharge_extractor, id_extractor/
→ claim_validator → END.  The three extraction branches run in one
LangGraph superstep: each reads the state snapshot left by the
classifier, and their `extracted_documents` contributions merge by the
`operator.add` accumulator in whatever order the branches complete. -/

/-- The three concurrent extraction branches. -/
inductive Branch
  | billB
  | idB
  | dischargeB
deriving DecidableEq, Repr

/-- The complete set of inference capabilities the graph depends on, plus
the timestamp read by the nodes (`datetime.now`). -/
structure Oracles where
  classify : String → Except LLMError ClassificationSchema
  billExtract : String → Except LLMError BillSchema
  idExtract : String → Except LLMError IDCardSchema
  dischargeExtract : String → Except LLMError DischargeSummarySchema
  validate : List ContextEntry → Except LLMError ValidationReport
  ts : String

/-- The `extracted_documents` contribution one branch computes from the
post-classifier state snapshot. -/
def branchContribution (o : Oracles) (s : ClaimState) : Branch → List ExtractedDocument
  | .billB => (bill_extraction_node o.billExtract o.ts s).1
  | .idB => (id_extraction_node o.idExtract o.ts s).1
  | .dischargeB => (discharge_extraction_node o.dischargeExtract o.ts s).1

/-- Merge the contributions of the branches that have completed, in
completion order `done`, into the snapshot state: each contribution is
computed from the snapshot `s` and folded in with the `operator.add`
accumulator. -/
def runExtractors (o : Oracles) (done : List Branch) (s : ClaimState) : ClaimState :=
  let merged := done.foldl (fun acc b => mergeExtracted acc (branchContribution o s b))
    s.extracted_documents
  { s with extracted_documents := merged }

/-- The state update of the classifier node. -/
def applyClassifier (o : Oracles) (s : ClaimState) : ClaimState :=
  { s with classified_docs := (classification_node o.classify s).1 }

/-- The state update of the claim-validator node. -/
def applyValidator (o : Oracles) (s : ClaimState) : ClaimState :=
  { s with validation_report := some (claim_validation_node o.validate o.ts s) }

/-- The state the graph is invoked with (claim.py line 150:
`{"inputs": graph_inputs}`; every other field takes its declared
default). -/
def initState (inputs : List DocumentInput) : ClaimState :=
  { inputs := inputs }

/-- How far the fixed DAG has progressed. -/
inductive Phase
  | atStart
  | classified
  | extracting
  | terminal
deriving DecidableEq, Repr

/-- The states reachable while the workflow processes `inputs`: the
initial state; the state after the classifier; the state after any
duplicate-free subset of branches has completed, in any order; and the
terminal state after the validator, which requires all three branches
joined (in any completion order). -/
inductive Reachable (o : Oracles) (inputs : List DocumentInput) : Phase → ClaimState → Prop
  | init : Reachable o inputs .atStart (initState inputs)
  | classifierDone : Reachable o inputs .classified (applyClassifier o (initState inputs))
  | extractorsPartial (done : List Branch) (hnd : done.Nodup) :
      Reachable o inputs .extracting
        (runExtractors o done (applyClassifier o (initState inputs)))
  | validatorDone (order : List Branch)
      (hperm : order.Perm [Branch.billB, Branch.idB, Branch.dischargeB]) :
      Reachable o inputs .terminal
        (applyValidator o (runExtractors o order (applyClassifier o (initState inputs))))

/-! ## Helper lemmas -/

/-- The request content the bill branch sends for one target document. -/
def billCallContent (d : ClassifiedDocument) : String :=
  billUserMessage d.doc_type d.filename (pyTake d.raw_text 8000)

/-- The request content the ID branch sends for one target document. -/
def idCallContent (d : ClassifiedDocument) : String :=
  idUserMessage d.filename (pyTake d.raw_text 5000)

/-- The request content the discharge branch sends for one target document. -/
def dischargeCallContent (d : ClassifiedDocument) : String :=
  dischargeUserMessage d.filename (pyTake d.raw_text 15000)

/-- The transcription piece contributed by one enumerated page in the OCR
loop: the marked transcription on success, nothing on failure. -/
def ocrPiece (vision : PdfPage → Except LLMError String) (ip : Nat × PdfPage) :
    Option String :=
  match vision ip.2 with
  | .ok content => some (ocrPageMarker ip.1 ++ "\n" ++ content)
  | .error _ => none

/-- Claim C3 as the spec states it: with sufficient first-page digital
text, a successful but EMPTY markdown extraction falls back to the plain
per-page concatenation, which is returned when its stripped length is at
least 50. -/
def C3_claim_as_stated : Prop :=
  ∀ (env : PdfEnv) (doc : PdfDoc),
    env.openResult = .ok doc →
    doc.pages.length ≠ 0 →
    ¬((pyStrip (firstPageText doc)).length < 50) →
    env.toMarkdownResult doc = .ok "" →
    50 ≤ (pyStrip (String.join (doc.pages.map PdfPage.text))).length →
    extract_text_from_bytes env = String.join (doc.pages.map PdfPage.text)

/-! ### Concrete fixtures used by witnesses and counterexamples -/

/-- An inference backend whose every call raises. -/
def errClassify : String → Except LLMError ClassificationSchema :=
  fun _ => .error ⟨"boom", "RuntimeError"⟩

/-- An inference backend that classifies everything as a bill. -/
def okClassifyBill : String → Except LLMError ClassificationSchema :=
  fun _ => .ok ⟨.bill, 1, "mentions an invoice and a total"⟩

/-- A bill extractor returning a fixed successful schema. -/
def okBillOracle : String → Except LLMError BillSchema :=
  fun _ => .ok ⟨some "INV-1", some "General Hospital", some "2024-01-01", some 250, "USD"⟩

/-- A bill extractor whose every call raises. -/
def errBillOracle : String → Except LLMError BillSchema :=
  fun _ => .error ⟨"boom", "RuntimeError"⟩

/-- An ID-card extractor returning a fixed successful schema. -/
def okIdOracle : String → Except LLMError IDCardSchema :=
  fun _ => .ok ⟨some "John Doe", some "P-123", some "1990-01-01", none⟩

/-- An ID-card extractor whose every call raises. -/
def errIdOracle : String → Except LLMError IDCardSchema :=
  fun _ => .error ⟨"boom", "RuntimeError"⟩

/-- A discharge extractor returning a fixed successful schema. -/
def okDischargeOracle : String → Except LLMError DischargeSummarySchema :=
  fun _ => .ok ⟨some "John Doe", some "2024-01-01", some "2024-01-05", some "Influenza", ["IV fluids"]⟩

/-- A discharge extractor whose every call raises. -/
def errDischargeOracle : String → Except LLMError DischargeSummarySchema :=
  fun _ => .error ⟨"boom", "RuntimeError"⟩

/-- A validator returning a fixed approval. -/
def okValidateOracle : List ContextEntry → Except LLMError ValidationReport :=
  fun _ => .ok ⟨[], [], none, .approved, "All documents consistent"⟩

/-- A validator whose every call raises. -/
def errValidateOracle : List ContextEntry → Except LLMError ValidationReport :=
  fun _ => .error ⟨"timeout", "TimeoutError"⟩

/-- A full oracle set with every capability succeeding. -/
def oraclesOkW : Oracles :=
  ⟨okClassifyBill, okBillOracle, okIdOracle, okDischargeOracle, okValidateOracle, "TS"⟩

/-- A sample raw input document with more than 10 characters of text. -/
def docInW : DocumentInput :=
  ⟨"bill.pdf", "Total: $250, Invoice INV-1 from General Hospital", none, none⟩

/-- A sample classified bill. -/
def classifiedBillW : ClassifiedDocument :=
  ⟨"bill.pdf", "Total: $250, Invoice INV-1 from General Hospital", .bill, "has totals", 1⟩

/-- A sample classified ID card. -/
def classifiedIdW : ClassifiedDocument :=
  ⟨"id.pdf", "Member: John Doe Policy P-123", .id_card, "looks like an ID card", 1⟩

/-- A sample classified discharge summary. -/
def classifiedDischargeW : ClassifiedDocument :=
  ⟨"discharge.pdf", "Patient John Doe admitted 2024-01-01", .discharge_summary, "clinical", 1⟩

/-- A claim state as left by the classifier on three typed documents. -/
def stClassifiedW : ClaimState :=
  { classified_docs := [classifiedBillW, classifiedIdW, classifiedDischargeW] }

/-- A claim state holding one extracted document, as seen by the
validator. -/
def stateC1 : ClaimState :=
  { extracted_documents :=
      [⟨"bill.pdf", .bill, "Total: $250", [("currency", FieldValue.str "USD")], some "TS"⟩] }

/-- Fifty characters of digital text. -/
def digits50 : String :=
  "01234567890123456789012345678901234567890123456789"

/-- A one-page digitally-readable PDF (first-page stripped text length
exactly 50). -/
def docDigital : PdfDoc :=
  ⟨[⟨digits50⟩]⟩

/-- A vision model whose every call raises. -/
def errVision : PdfPage → Except LLMError String :=
  fun _ => .error ⟨"no vision", "RuntimeError"⟩

/-- A vision model transcribing every rendered page successfully. -/
def okVision : PdfPage → Except LLMError String :=
  fun p => .ok ("SEEN " ++ p.text)

/-- Environment for the C3 counterexample: markdown extraction succeeds
with the empty string on a digitally-readable one-page document. -/
def envMdEmpty : PdfEnv :=
  ⟨.ok docDigital, fun _ => .ok "", errVision⟩

/-- Environment where markdown extraction succeeds with a non-empty
result. -/
def envMdOk : PdfEnv :=
  ⟨.ok docDigital, fun _ => .ok "# Invoice table", errVision⟩

/-- Environment where markdown extraction raises. -/
def envMdErr : PdfEnv :=
  ⟨.ok docDigital, fun _ => .error "md failure", errVision⟩

/-- Environment whose byte stream cannot be opened. -/
def envOpenErr : PdfEnv :=
  ⟨.error "cannot open stream", fun _ => .error "unused", errVision⟩

/-- Environment whose document has zero pages. -/
def envZeroPages : PdfEnv :=
  ⟨.ok ⟨[]⟩, fun _ => .error "unused", errVision⟩

/-- A six-page scanned document: every page has under 50 characters of
digital text. -/
def docScanned6 : PdfDoc :=
  ⟨[⟨"p1"⟩, ⟨"p2"⟩, ⟨"p3"⟩, ⟨"p4"⟩, ⟨"p5"⟩, ⟨"p6"⟩]⟩

/-- Environment around the six-page scanned document with a working
vision model. -/
def envScanned : PdfEnv :=
  ⟨.ok docScanned6, fun _ => .error "md failure", okVision⟩

/-- A second six-page scanned document agreeing with `docScanned6` on the
first five pages but with different sixth-page content. -/
def docScanned6b : PdfDoc :=
  ⟨[⟨"p1"⟩, ⟨"p2"⟩, ⟨"p3"⟩, ⟨"p4"⟩, ⟨"p5"⟩, ⟨"SIXTH PAGE SECRET"⟩]⟩

/-- The terminal state the workflow reaches on one sample input under the
all-succeeding oracles. -/
def reachedTerminalW : ClaimState :=
  applyValidator oraclesOkW
    (runExtractors oraclesOkW [Branch.billB, Branch.idB, Branch.dischargeB]
      (applyClassifier oraclesOkW (initState [docInW])))

theorem classifyAll_eq (classify : String → Except LLMError ClassificationSchema)
    (l : List DocumentInput) :
    classifyAll classify l =
      (l.map (fun d => (classifyDoc classify d).1),
       l.flatMap (fun d => (classifyDoc classify d).2)) := by
  induction l with
  | nil => rfl
  | cons d rest ih => simp [classifyAll, ih]

theorem classifyAll_fst_length (classify : String → Except LLMError ClassificationSchema)
    (l : List DocumentInput) : (classifyAll classify l).1.length = l.length := by
  rw [classifyAll_eq]; simp

theorem extractOneBill_snd (be : String → Except LLMError BillSchema)
    (ts : String) (d : ClassifiedDocument) :
    (extractOneBill be ts d).2 = [billCallContent d] := by
  dsimp only [extractOneBill, billCallContent]
  cases be (billUserMessage d.doc_type d.filename (pyTake d.raw_text 8000)) <;> rfl

theorem extractOneId_snd (ie : String → Except LLMError IDCardSchema)
    (ts : String) (d : ClassifiedDocument) :
    (extractOneId ie ts d).2 = [idCallContent d] := by
  dsimp only [extractOneId, idCallContent]
  cases ie (idUserMessage d.filename (pyTake d.raw_text 5000)) <;> rfl

theorem extractOneDischarge_snd (de : String → Except LLMError DischargeSummarySchema)
    (ts : String) (d : ClassifiedDocument) :
    (extractOneDischarge de ts d).2 = [dischargeCallContent d] := by
  dsimp only [extractOneDischarge, dischargeCallContent]
  cases de (dischargeUserMessage d.filename (pyTake d.raw_text 15000)) <;> rfl

theorem extractAllBills_eq (be : String → Except LLMError BillSchema)
    (ts : String) (l : List ClassifiedDocument) :
    extractAllBills be ts l =
      (l.map (fun d => (extractOneBill be ts d).1), l.map billCallContent) := by
  induction l with
  | nil => rfl
  | cons d rest ih => simp [extractAllBills, ih, extractOneBill_snd]

theorem extractAllIds_eq (ie : String → Except LLMError IDCardSchema)
    (ts : String) (l : List ClassifiedDocument) :
    extractAllIds ie ts l =
      (l.map (fun d => (extractOneId ie ts d).1), l.map idCallContent) := by
  induction l with
  | nil => rfl
  | cons d rest ih => simp [extractAllIds, ih, extractOneId_snd]

theorem extractAllDischarges_eq (de : String → Except LLMError DischargeSummarySchema)
    (ts : String) (l : List ClassifiedDocument) :
    extractAllDischarges de ts l =
      (l.map (fun d => (extractOneDischarge de ts d).1), l.map dischargeCallContent) := by
  induction l with
  | nil => rfl
  | cons d rest ih => simp [extractAllDischarges, ih, extractOneDischarge_snd]

theorem bill_extraction_node_eq (be : String → Except LLMError BillSchema)
    (ts : String) (st : ClaimState) :
    bill_extraction_node be ts st =
      ((st.classified_docs.filter isBillTarget).map (fun d => (extractOneBill be ts d).1),
       (st.classified_docs.filter isBillTarget).map billCallContent) := by
  unfold bill_extraction_node
  cases h : (st.classified_docs.filter isBillTarget).isEmpty
  · simp only [h, Bool.false_eq_true, if_false, extractAllBills_eq]
  · rw [List.isEmpty_iff] at h
    simp [h]

theorem id_extraction_node_eq (ie : String → Except LLMError IDCardSchema)
    (ts : String) (st : ClaimState) :
    id_extraction_node ie ts st =
      ((st.classified_docs.filter isIdTarget).map (fun d => (extractOneId ie ts d).1),
       (st.classified_docs.filter isIdTarget).map idCallContent) := by
  unfold id_extraction_node
  cases h : (st.classified_docs.filter isIdTarget).isEmpty
  · simp only [h, Bool.false_eq_true, if_false, extractAllIds_eq]
  · rw [List.isEmpty_iff] at h
    simp [h]

theorem discharge_extraction_node_eq (de : String → Except LLMError DischargeSummarySchema)
    (ts : String) (st : ClaimState) :
    discharge_extraction_node de ts st =
      ((st.classified_docs.filter isDischargeTarget).map
         (fun d => (extractOneDischarge de ts d).1),
       (st.classified_docs.filter isDischargeTarget).map dischargeCallContent) := by
  unfold discharge_extraction_node
  cases h : (st.classified_docs.filter isDischargeTarget).isEmpty
  · simp only [h, Bool.false_eq_true, if_false, extractAllDischarges_eq]
  · rw [List.isEmpty_iff] at h
    simp [h]

theorem extractOneBill_ok (be : String → Except LLMError BillSchema)
    (ts : String) (d : ClassifiedDocument) (r : BillSchema)
    (h : be (billCallContent d) = .ok r) :
    (extractOneBill be ts d).1 =
      ⟨d.filename, d.doc_type, d.raw_text, r.dumpExcludeNone, some ts⟩ := by
  unfold billCallContent at h
  dsimp only [extractOneBill]
  rw [h]

theorem extractOneBill_err (be : String → Except LLMError BillSchema)
    (ts : String) (d : ClassifiedDocument) (e : LLMError)
    (h : be (billCallContent d) = .error e) :
    (extractOneBill be ts d).1 =
      ⟨d.filename, d.doc_type, d.raw_text, extractionErrorData e, some ts⟩ := by
  unfold billCallContent at h
  dsimp only [extractOneBill]
  rw [h]

theorem extractOneId_ok (ie : String → Except LLMError IDCardSchema)
    (ts : String) (d : ClassifiedDocument) (r : IDCardSchema)
    (h : ie (idCallContent d) = .ok r) :
    (extractOneId ie ts d).1 =
      ⟨d.filename, d.doc_type, d.raw_text, r.dumpExcludeNone, some ts⟩ := by
  unfold idCallContent at h
  dsimp only [extractOneId]
  rw [h]

theorem extractOneId_err (ie : String → Except LLMError IDCardSchema)
    (ts : String) (d : ClassifiedDocument) (e : LLMError)
    (h : ie (idCallContent d) = .error e) :
    (extractOneId ie ts d).1 =
      ⟨d.filename, d.doc_type, d.raw_text, extractionErrorData e, some ts⟩ := by
  unfold idCallContent at h
  dsimp only [extractOneId]
  rw [h]

theorem extractOneDischarge_ok (de : String → Except LLMError DischargeSummarySchema)
    (ts : String) (d : ClassifiedDocument) (r : DischargeSummarySchema)
    (h : de (dischargeCallContent d) = .ok r) :
    (extractOneDischarge de ts d).1 =
      ⟨d.filename, d.doc_type, d.raw_text, r.dumpExcludeNone, some ts⟩ := by
  unfold dischargeCallContent at h
  dsimp only [extractOneDischarge]
  rw [h]

theorem extractOneDischarge_err (de : String → Except LLMError DischargeSummarySchema)
    (ts : String) (d : ClassifiedDocument) (e : LLMError)
    (h : de (dischargeCallContent d) = .error e) :
    (extractOneDischarge de ts d).1 =
      ⟨d.filename, d.doc_type, d.raw_text, extractionErrorData e, some ts⟩ := by
  unfold dischargeCallContent at h
  dsimp only [extractOneDischarge]
  rw [h]

theorem extractOneBill_fields (be : String → Except LLMError BillSchema)
    (ts : String) (d : ClassifiedDocument) :
    (extractOneBill be ts d).1.filename = d.filename ∧
    (extractOneBill be ts d).1.raw_text = d.raw_text ∧
    (extractOneBill be ts d).1.doc_type = d.doc_type := by
  dsimp only [extractOneBill]
  cases be (billUserMessage d.doc_type d.filename (pyTake d.raw_text 8000)) <;>
    exact ⟨rfl, rfl, rfl⟩

theorem extractOneId_fields (ie : String → Except LLMError IDCardSchema)
    (ts : String) (d : ClassifiedDocument) :
    (extractOneId ie ts d).1.filename = d.filename ∧
    (extractOneId ie ts d).1.raw_text = d.raw_text ∧
    (extractOneId ie ts d).1.doc_type = d.doc_type := by
  dsimp only [extractOneId]
  cases ie (idUserMessage d.filename (pyTake d.raw_text 5000)) <;>
    exact ⟨rfl, rfl, rfl⟩

theorem extractOneDischarge_fields (de : String → Except LLMError DischargeSummarySchema)
    (ts : String) (d : ClassifiedDocument) :
    (extractOneDischarge de ts d).1.filename = d.filename ∧
    (extractOneDischarge de ts d).1.raw_text = d.raw_text ∧
    (extractOneDischarge de ts d).1.doc_type = d.doc_type := by
  dsimp only [extractOneDischarge]
  cases de (dischargeUserMessage d.filename (pyTake d.raw_text 15000)) <;>
    exact ⟨rfl, rfl, rfl⟩

theorem billDump_keys (r : BillSchema) :
    r.dumpExcludeNone.map Prod.fst =
      (if r.invoice_number.isSome then ["invoice_number"] else []) ++
      (if r.hospital_name.isSome then ["hospital_name"] else []) ++
      (if r.bill_date.isSome then ["bill_date"] else []) ++
      (if r.total_amount.isSome then ["total_amount"] else []) ++
      ["currency"] := by
  rcases r with ⟨i, h, b, t, c⟩
  cases i <;> cases h <;> cases b <;> cases t <;>
    simp [BillSchema.dumpExcludeNone, optStrField, optNumField]

theorem idDump_keys (r : IDCardSchema) :
    r.dumpExcludeNone.map Prod.fst =
      (if r.full_name.isSome then ["full_name"] else []) ++
      (if r.policy_number.isSome then ["policy_number"] else []) ++
      (if r.date_of_birth.isSome then ["date_of_birth"] else []) ++
      (if r.group_number.isSome then ["group_number"] else []) := by
  rcases r with ⟨f, p, dob, g⟩
  cases f <;> cases p <;> cases dob <;> cases g <;>
    simp [IDCardSchema.dumpExcludeNone, optStrField]

theorem dischargeDump_keys (r : DischargeSummarySchema) :
    r.dumpExcludeNone.map Prod.fst =
      (if r.patient_name.isSome then ["patient_name"] else []) ++
      (if r.admission_date.isSome then ["admission_date"] else []) ++
      (if r.discharge_date.isSome then ["discharge_date"] else []) ++
      (if r.diagnosis.isSome then ["diagnosis"] else []) ++
      ["procedures"] := by
  rcases r with ⟨p, a, dd, dg, pr⟩
  cases p <;> cases a <;> cases dd <;> cases dg <;>
    simp [DischargeSummarySchema.dumpExcludeNone, optStrField]

theorem classifyDoc_fields (classify : String → Except LLMError ClassificationSchema)
    (d : DocumentInput) :
    (classifyDoc classify d).1.filename = d.filename ∧
    (classifyDoc classify d).1.raw_text = d.raw_text := by
  dsimp only [classifyDoc]
  by_cases h : d.raw_text = "" ∨ (pyStrip d.raw_text).length < 10
  · rw [if_pos h]
    exact ⟨rfl, rfl⟩
  · rw [if_neg h]
    cases classify (classificationUserMessage d.filename (pyTake d.raw_text 10000)) <;>
      exact ⟨rfl, rfl⟩

theorem pyTake_length_le (s : String) (n : Nat) : (pyTake s n).length ≤ n :=
  List.length_take_le n s.data

theorem pyStrip_empty : pyStrip "" = "" := rfl

/-! ## Claim theorems -/

/-- Claim C1: the claim validation node never propagates an inference
error.  For every ClaimState, if the structured validation call fails,
claim_validation_node still returns a ValidationReport with
status manual_review, the fixed explanatory reason, an empty
missing_documents list, and exactly one high-severity discrepancy whose
message cites the failure; and a ValidationReport is produced under every
circumstance. -/
theorem C1_validation_error_fallback
    (validate : List ContextEntry → Except LLMError ValidationReport)
    (ts : String) (state : ClaimState) :
    (∀ e : LLMError, validate (contextData state) = .error e →
      claim_validation_node validate ts state =
        { status := .manual_review,
          reason := validationFallbackReason,
          discrepancies := [⟨Severity.high, "AI Validation Error: " ++ e.msg, none, none⟩],
          missing_documents := [],
          validation_timestamp := some ts }) ∧
    (∃ r : ValidationReport, claim_validation_node validate ts state = r) := by
  constructor
  · intro e he
    unfold claim_validation_node
    rw [he]
  · exact ⟨_, rfl⟩

/-- Witness for C1: a concrete state and a failing validator produce
exactly the synthesized manual-review report. -/
theorem C1_validation_error_fallback_witness :
    claim_validation_node errValidateOracle "TS" stateC1 =
      { status := .manual_review,
        reason := validationFallbackReason,
        discrepancies := [⟨Severity.high, "AI Validation Error: timeout", none, none⟩],
        missing_documents := [],
        validation_timestamp := some "TS" } :=
  (C1_validation_error_fallback errValidateOracle "TS" stateC1).1
    ⟨"timeout", "TimeoutError"⟩ rfl

/-- Claim C4: a DocumentInput whose stripped raw text is under 10
characters is short-circuited to `other` with confidence 0.0 and no
inference call; stripped length exactly 10 is not short-circuited, and
the text sent to inference is the input truncated to its first 10,000
characters. -/
theorem C4_classifier_short_circuit_boundary
    (classify : String → Except LLMError ClassificationSchema) (d : DocumentInput) :
    ((pyStrip d.raw_text).length < 10 →
      classifyDoc classify d =
        (⟨d.filename, d.raw_text, .other, "Insufficient text content extracted.", 0⟩, [])) ∧
    ((pyStrip d.raw_text).length = 10 →
      (classifyDoc classify d).2 =
        [classificationUserMessage d.filename (pyTake d.raw_text 10000)] ∧
      (pyTake d.raw_text 10000).length ≤ 10000) := by
  constructor
  · intro h
    have hc : d.raw_text = "" ∨ (pyStrip d.raw_text).length < 10 := Or.inr h
    simp only [classifyDoc, if_pos hc]
  · intro h
    have hne : ¬(d.raw_text = "" ∨ (pyStrip d.raw_text).length < 10) := by
      rintro (h0 | hlt)
      · rw [h0, pyStrip_empty] at h
        simp at h
      · omega
    refine ⟨?_, pyTake_length_le d.raw_text 10000⟩
    simp only [classifyDoc, if_neg hne]
    cases classify (classificationUserMessage d.filename (pyTake d.raw_text 10000)) <;> rfl

/-- Witness for C4: a 9-character input is short-circuited even against a
raising backend, and a 10-character input issues exactly the truncated
request. -/
theorem C4_classifier_short_circuit_boundary_witness :
    classifyDoc errClassify ⟨"a.pdf", "short txt", none, none⟩ =
      (⟨"a.pdf", "short txt", .other, "Insufficient text content extracted.", 0⟩, []) ∧
    ((classifyDoc errClassify ⟨"b.pdf", "0123456789", none, none⟩).2 =
      [classificationUserMessage "b.pdf" (pyTake "0123456789" 10000)] ∧
     (pyTake "0123456789" 10000).length ≤ 10000) :=
  ⟨(C4_classifier_short_circuit_boundary errClassify ⟨"a.pdf", "short txt", none, none⟩).1
     (by decide),
   (C4_classifier_short_circuit_boundary errClassify ⟨"b.pdf", "0123456789", none, none⟩).2
     (by decide)⟩

/-- Claim C5: classification_node returns exactly one ClassifiedDocument
per DocumentInput, in input order (position `i` of the output classifies
position `i` of the inputs), and an inference failure on one document
yields an `other`/0.0 classification with a reasoning string describing
the failure, without affecting any other position. -/
theorem C5_classification_per_input_isolation
    (classify : String → Except LLMError ClassificationSchema) (st : ClaimState) :
    (classification_node classify st).1.length = st.inputs.length ∧
    (∀ i : Nat, (classification_node classify st).1[i]? =
      (st.inputs[i]?).map (fun d => (classifyDoc classify d).1)) ∧
    (∀ (d : DocumentInput) (e : LLMError),
      ¬(d.raw_text = "" ∨ (pyStrip d.raw_text).length < 10) →
      classify (classificationUserMessage d.filename (pyTake d.raw_text 10000)) = .error e →
      (classifyDoc classify d).1 =
        ⟨d.filename, d.raw_text, .other, "Classification failed: " ++ e.msg, 0⟩) := by
  refine ⟨?_, ?_, ?_⟩
  · exact classifyAll_fst_length classify st.inputs
  · intro i
    show (classifyAll classify st.inputs).1[i]? = _
    rw [classifyAll_eq]
    exact List.getElem?_map _ _ i
  · intro d e hne he
    simp only [classifyDoc, if_neg hne]
    rw [he]

/-- Witness for C5: against an always-failing backend, a sufficiently
long document is classified `other`/0.0 with the failure in the
reasoning. -/
theorem C5_classification_per_input_isolation_witness :
    (classifyDoc errClassify ⟨"c.pdf", "0123456789", none, none⟩).1 =
      ⟨"c.pdf", "0123456789", .other, "Classification failed: boom", 0⟩ :=
  (C5_classification_per_input_isolation errClassify (initState [])).2.2
    ⟨"c.pdf", "0123456789", none, none⟩ ⟨"boom", "RuntimeError"⟩ (by decide) rfl

/-- Claim C8: extract_text_from_bytes always returns a string (it is a
total function of its environment); an unrecoverable parsing failure
(the open raising) yields the empty string, and a paged document with
zero pages also yields the empty string. -/
theorem C8_extract_text_total_empty_on_failure (env : PdfEnv) :
    (∀ err : String, env.openResult = .error err → extract_text_from_bytes env = "") ∧
    (∀ doc : PdfDoc, env.openResult = .ok doc → doc.pages = [] →
      extract_text_from_bytes env = "") := by
  constructor
  · intro err h
    unfold extract_text_from_bytes
    rw [h]
  · intro doc h hp
    unfold extract_text_from_bytes
    rw [h]
    simp [hp]

/-- Witness for C8: a stream that cannot be opened and a zero-page
document both yield the empty string. -/
theorem C8_extract_text_total_empty_on_failure_witness :
    extract_text_from_bytes envOpenErr = "" ∧ extract_text_from_bytes envZeroPages = "" :=
  ⟨(C8_extract_text_total_empty_on_failure envOpenErr).1 "cannot open stream" rfl,
   (C8_extract_text_total_empty_on_failure envZeroPages).2 ⟨[]⟩ rfl rfl⟩

/-- Claim C2: every extraction branch filters the classified documents to
its target type set and yields exactly one ExtractedDocument and exactly
one structured-extraction request per matching document (so an empty
match contributes nothing and calls nothing); on success the emitted data
is `model_dump(exclude_none=True)` — whose keys are exactly the non-null
fields — and on failure the branch still emits an ExtractedDocument for
that filename with the extraction-error payload. -/
theorem C2_extraction_per_document :
    (∀ (be : String → Except LLMError BillSchema) (ts : String) (st : ClaimState),
      bill_extraction_node be ts st =
        ((st.classified_docs.filter isBillTarget).map (fun d => (extractOneBill be ts d).1),
         (st.classified_docs.filter isBillTarget).map billCallContent)) ∧
    (∀ (ie : String → Except LLMError IDCardSchema) (ts : String) (st : ClaimState),
      id_extraction_node ie ts st =
        ((st.classified_docs.filter isIdTarget).map (fun d => (extractOneId ie ts d).1),
         (st.classified_docs.filter isIdTarget).map idCallContent)) ∧
    (∀ (de : String → Except LLMError DischargeSummarySchema) (ts : String) (st : ClaimState),
      discharge_extraction_node de ts st =
        ((st.classified_docs.filter isDischargeTarget).map
           (fun d => (extractOneDischarge de ts d).1),
         (st.classified_docs.filter isDischargeTarget).map dischargeCallContent)) ∧
    (∀ (be : String → Except LLMError BillSchema) ts d r, be (billCallContent d) = .ok r →
      (extractOneBill be ts d).1 =
        ⟨d.filename, d.doc_type, d.raw_text, r.dumpExcludeNone, some ts⟩) ∧
    (∀ (be : String → Except LLMError BillSchema) ts d e, be (billCallContent d) = .error e →
      (extractOneBill be ts d).1 =
        ⟨d.filename, d.doc_type, d.raw_text, extractionErrorData e, some ts⟩) ∧
    (∀ (ie : String → Except LLMError IDCardSchema) ts d r, ie (idCallContent d) = .ok r →
      (extractOneId ie ts d).1 =
        ⟨d.filename, d.doc_type, d.raw_text, r.dumpExcludeNone, some ts⟩) ∧
    (∀ (ie : String → Except LLMError IDCardSchema) ts d e, ie (idCallContent d) = .error e →
      (extractOneId ie ts d).1 =
        ⟨d.filename, d.doc_type, d.raw_text, extractionErrorData e, some ts⟩) ∧
    (∀ (de : String → Except LLMError DischargeSummarySchema) ts d r,
      de (dischargeCallContent d) = .ok r →
      (extractOneDischarge de ts d).1 =
        ⟨d.filename, d.doc_type, d.raw_text, r.dumpExcludeNone, some ts⟩) ∧
    (∀ (de : String → Except LLMError DischargeSummarySchema) ts d e,
      de (dischargeCallContent d) = .error e →
      (extractOneDischarge de ts d).1 =
        ⟨d.filename, d.doc_type, d.raw_text, extractionErrorData e, some ts⟩) ∧
    (∀ r : BillSchema, r.dumpExcludeNone.map Prod.fst =
      (if r.invoice_number.isSome then ["invoice_number"] else []) ++
      (if r.hospital_name.isSome then ["hospital_name"] else []) ++
      (if r.bill_date.isSome then ["bill_date"] else []) ++
      (if r.total_amount.isSome then ["total_amount"] else []) ++ ["currency"]) ∧
    (∀ r : IDCardSchema, r.dumpExcludeNone.map Prod.fst =
      (if r.full_name.isSome then ["full_name"] else []) ++
      (if r.policy_number.isSome then ["policy_number"] else []) ++
      (if r.date_of_birth.isSome then ["date_of_birth"] else []) ++
      (if r.group_number.isSome then ["group_number"] else [])) ∧
    (∀ r : DischargeSummarySchema, r.dumpExcludeNone.map Prod.fst =
      (if r.patient_name.isSome then ["patient_name"] else []) ++
      (if r.admission_date.isSome then ["admission_date"] else []) ++
      (if r.discharge_date.isSome then ["discharge_date"] else []) ++
      (if r.diagnosis.isSome then ["diagnosis"] else []) ++ ["procedures"]) :=
  ⟨bill_extraction_node_eq, id_extraction_node_eq, discharge_extraction_node_eq,
   extractOneBill_ok, extractOneBill_err, extractOneId_ok, extractOneId_err,
   extractOneDischarge_ok, extractOneDischarge_err,
   billDump_keys, idDump_keys, dischargeDump_keys⟩

/-- Witness for C2: a succeeding bill extraction and a failing ID
extraction each emit exactly one ExtractedDocument of the stated shape. -/
theorem C2_extraction_per_document_witness :
    (extractOneBill okBillOracle "TS" classifiedBillW).1 =
      ⟨classifiedBillW.filename, classifiedBillW.doc_type, classifiedBillW.raw_text,
       BillSchema.dumpExcludeNone
         ⟨some "INV-1", some "General Hospital", some "2024-01-01", some 250, "USD"⟩,
       some "TS"⟩ ∧
    (extractOneId errIdOracle "TS" classifiedIdW).1 =
      ⟨classifiedIdW.filename, classifiedIdW.doc_type, classifiedIdW.raw_text,
       extractionErrorData ⟨"boom", "RuntimeError"⟩, some "TS"⟩ := by
  obtain ⟨-, -, -, hbok, -, -, hiderr, -, -, -, -, -⟩ := C2_extraction_per_document
  exact ⟨hbok okBillOracle "TS" classifiedBillW _ rfl,
         hiderr errIdOracle "TS" classifiedIdW _ rfl⟩

/-- Claim C10: truncation applies only to the prompt sent to inference —
every ClassifiedDocument carries the full untruncated raw text and the
original filename of its source input, and every ExtractedDocument
produced by a branch carries the full raw text, filename and doc type of
its source classified document, unchanged. -/
theorem C10_truncation_only_in_prompt :
    (∀ (classify : String → Except LLMError ClassificationSchema) (d : DocumentInput),
      (classifyDoc classify d).1.filename = d.filename ∧
      (classifyDoc classify d).1.raw_text = d.raw_text) ∧
    (∀ (be : String → Except LLMError BillSchema) (ts : String) (st : ClaimState)
       (e : ExtractedDocument), e ∈ (bill_extraction_node be ts st).1 →
      ∃ c, c ∈ st.classified_docs ∧ isBillTarget c = true ∧
        e.filename = c.filename ∧ e.raw_text = c.raw_text ∧ e.doc_type = c.doc_type) ∧
    (∀ (ie : String → Except LLMError IDCardSchema) (ts : String) (st : ClaimState)
       (e : ExtractedDocument), e ∈ (id_extraction_node ie ts st).1 →
      ∃ c, c ∈ st.classified_docs ∧ isIdTarget c = true ∧
        e.filename = c.filename ∧ e.raw_text = c.raw_text ∧ e.doc_type = c.doc_type) ∧
    (∀ (de : String → Except LLMError DischargeSummarySchema) (ts : String) (st : ClaimState)
       (e : ExtractedDocument), e ∈ (discharge_extraction_node de ts st).1 →
      ∃ c, c ∈ st.classified_docs ∧ isDischargeTarget c = true ∧
        e.filename = c.filename ∧ e.raw_text = c.raw_text ∧ e.doc_type = c.doc_type) := by
  refine ⟨classifyDoc_fields, ?_, ?_, ?_⟩
  · intro be ts st e he
    rw [bill_extraction_node_eq] at he
    rw [List.mem_map] at he
    obtain ⟨c, hc, rfl⟩ := he
    rw [List.mem_filter] at hc
    exact ⟨c, hc.1, hc.2, (extractOneBill_fields be ts c).1,
      (extractOneBill_fields be ts c).2.1, (extractOneBill_fields be ts c).2.2⟩
  · intro ie ts st e he
    rw [id_extraction_node_eq] at he
    rw [List.mem_map] at he
    obtain ⟨c, hc, rfl⟩ := he
    rw [List.mem_filter] at hc
    exact ⟨c, hc.1, hc.2, (extractOneId_fields ie ts c).1,
      (extractOneId_fields ie ts c).2.1, (extractOneId_fields ie ts c).2.2⟩
  · intro de ts st e he
    rw [discharge_extraction_node_eq] at he
    rw [List.mem_map] at he
    obtain ⟨c, hc, rfl⟩ := he
    rw [List.mem_filter] at hc
    exact ⟨c, hc.1, hc.2, (extractOneDischarge_fields de ts c).1,
      (extractOneDischarge_fields de ts c).2.1, (extractOneDischarge_fields de ts c).2.2⟩

/-- Witness for C10: the document the bill branch extracts from a
concrete classified state carries the untruncated raw text, filename and
doc type of its source. -/
theorem C10_truncation_only_in_prompt_witness :
    ∃ c, c ∈ stClassifiedW.classified_docs ∧ isBillTarget c = true ∧
      (extractOneBill okBillOracle "TS" classifiedBillW).1.filename = c.filename ∧
      (extractOneBill okBillOracle "TS" classifiedBillW).1.raw_text = c.raw_text ∧
      (extractOneBill okBillOracle "TS" classifiedBillW).1.doc_type = c.doc_type :=
  C10_truncation_only_in_prompt.2.1 okBillOracle "TS" stClassifiedW
    (extractOneBill okBillOracle "TS" classifiedBillW).1 (by decide)

/-- Counterexample for C3: on a one-page document whose first page has
exactly 50 stripped characters, a SUCCESSFUL markdown extraction whose
result is the empty string is returned as-is — the code does not test the
markdown result for emptiness (pdf_loader.py lines 99-101 return
unconditionally on success) — so the claimed fallback to the plain
concatenation does not happen. -/
theorem C3_counterexample_empty_markdown : ¬ C3_claim_as_stated := by
  intro h
  have hres := h envMdEmpty docDigital rfl (by decide) (by decide) rfl (by decide)
  exact absurd hres (by decide)

/-- Claim C3 amended: when the first page has at least 50 characters of
stripped digital text, the markdown extraction result is returned
whenever the call SUCCEEDS — even when it is empty; only when the
markdown extraction raises does the cascade fall back to plain per-page
concatenation, returned iff its stripped length is at least 50, otherwise
vision OCR is invoked. -/
theorem C3_markdown_returned_on_success (env : PdfEnv) (doc : PdfDoc)
    (hopen : env.openResult = .ok doc) (hne : ¬doc.pages.length = 0)
    (hdigital : ¬(pyStrip (firstPageText doc)).length < 50) :
    (∀ md : String, env.toMarkdownResult doc = .ok md →
      extract_text_from_bytes env = md) ∧
    (∀ err : String, env.toMarkdownResult doc = .error err →
      extract_text_from_bytes env =
        if (pyStrip (String.join (doc.pages.map PdfPage.text))).length < 50
        then (perform_ai_ocr env.vision doc).1
        else String.join (doc.pages.map PdfPage.text)) := by
  constructor
  · intro md hmd
    unfold extract_text_from_bytes
    rw [hopen]
    dsimp only
    rw [if_neg hne, if_neg hdigital, hmd]
  · intro err herr
    unfold extract_text_from_bytes
    rw [hopen]
    dsimp only
    rw [if_neg hne, if_neg hdigital, herr]

/-- Witness for the amended C3: a successful markdown extraction is
returned verbatim, and a raised markdown extraction falls back to the
plain concatenation (here of stripped length exactly 50). -/
theorem C3_markdown_returned_on_success_witness :
    extract_text_from_bytes envMdOk = "# Invoice table" ∧
    extract_text_from_bytes envMdErr = String.join (docDigital.pages.map PdfPage.text) :=
  ⟨(C3_markdown_returned_on_success envMdOk docDigital rfl (by decide) (by decide)).1
     "# Invoice table" rfl,
   (C3_markdown_returned_on_success envMdErr docDigital rfl (by decide) (by decide)).2
     "md failure" rfl⟩

theorem ocrLoop_closed (vision : PdfPage → Except LLMError String) (pages : List PdfPage) :
    ∀ i : Nat, i ≤ 5 →
    ocrLoop vision pages i =
      ((List.enumFrom i (pages.take (5 - i))).filterMap (ocrPiece vision) ++
        (if 5 - i < pages.length then [ocrTruncationNotice] else []),
       (List.range' i (min (5 - i) pages.length)).map (fun j => (⟨j, 2⟩ : OcrCall))) := by
  induction pages with
  | nil =>
    intro i hi
    simp [ocrLoop]
  | cons p rest ih =>
    intro i hi
    rcases Nat.lt_or_ge i 5 with hlt | hge
    · have h5i : 5 - i = (5 - (i + 1)) + 1 := by omega
      have hmin : min (5 - i) (p :: rest).length = min (5 - (i + 1)) rest.length + 1 := by
        simp only [List.length_cons, h5i]
        omega
      have hcond : (5 - i < (p :: rest).length) = (5 - (i + 1) < rest.length) := by
        simp only [List.length_cons, h5i, eq_iff_iff]
        omega
      simp only [ocrLoop, if_neg (by omega : ¬5 ≤ i), ih (i + 1) (by omega),
        h5i, hmin, hcond, List.take_succ_cons, List.enumFrom, List.range'_succ,
        List.map_cons]
      cases hv : vision p with
      | ok content =>
        simp only [List.filterMap_cons, ocrPiece, hv, List.length_cons,
          Nat.add_lt_add_iff_right, Nat.succ_min_succ, List.range'_succ, List.map_cons,
          List.cons_append]
      | error e =>
        simp only [List.filterMap_cons, ocrPiece, hv, List.length_cons,
          Nat.add_lt_add_iff_right, Nat.succ_min_succ, List.range'_succ, List.map_cons,
          List.cons_append]
    · have h5 : i = 5 := le_antisymm hi hge
      subst h5
      simp [ocrLoop]

/-- Claim C9: the vision-OCR fallback renders at most the first 5 pages,
issuing exactly one vision request per rendered page (at 2x zoom, indices
0 to min 5 n - 1); beyond 5 pages a truncation notice takes the place of
the remaining pages, whose content never influences the output (two
documents agreeing on their first five pages and their page count
transcribe identically); a failing page is omitted from the
concatenation (`ocrPiece` drops it) without aborting the remaining
pages; and the cascade hands a scanned first page (under 50 stripped
characters) to this fallback. -/
theorem C9_ocr_first_five_best_effort :
    (∀ (vision : PdfPage → Except LLMError String) (doc : PdfDoc),
      perform_ai_ocr vision doc =
        (String.intercalate "\n"
          ((List.enumFrom 0 (doc.pages.take 5)).filterMap (ocrPiece vision) ++
            (if 5 < doc.pages.length then [ocrTruncationNotice] else [])),
         (List.range (min 5 doc.pages.length)).map (fun j => (⟨j, 2⟩ : OcrCall)))) ∧
    (∀ (vision : PdfPage → Except LLMError String) (doc1 doc2 : PdfDoc),
      doc1.pages.take 5 = doc2.pages.take 5 → doc1.pages.length = doc2.pages.length →
      perform_ai_ocr vision doc1 = perform_ai_ocr vision doc2) ∧
    (∀ (env : PdfEnv) (doc : PdfDoc), env.openResult = .ok doc →
      ¬doc.pages.length = 0 → (pyStrip (firstPageText doc)).length < 50 →
      extract_text_from_bytes env = (perform_ai_ocr env.vision doc).1) := by
  have hmain : ∀ (vision : PdfPage → Except LLMError String) (doc : PdfDoc),
      perform_ai_ocr vision doc =
        (String.intercalate "\n"
          ((List.enumFrom 0 (doc.pages.take 5)).filterMap (ocrPiece vision) ++
            (if 5 < doc.pages.length then [ocrTruncationNotice] else [])),
         (List.range (min 5 doc.pages.length)).map (fun j => (⟨j, 2⟩ : OcrCall))) := by
    intro vision doc
    unfold perform_ai_ocr
    rw [ocrLoop_closed vision doc.pages 0 (by omega)]
    rw [List.range_eq_range']
  refine ⟨hmain, ?_, ?_⟩
  · intro vision doc1 doc2 htake hlen
    rw [hmain, hmain, htake, hlen]
  · intro env doc hopen hne hscan
    unfold extract_text_from_bytes
    rw [hopen]
    dsimp only
    rw [if_neg hne, if_pos hscan]

/-- Witness for C9: the cascade routes the six-page scanned document to
vision OCR, and the transcription is unchanged when the sixth page's
content is replaced, so that content never appears. -/
theorem C9_ocr_first_five_best_effort_witness :
    extract_text_from_bytes envScanned = (perform_ai_ocr okVision docScanned6).1 ∧
    perform_ai_ocr okVision docScanned6 = perform_ai_ocr okVision docScanned6b :=
  ⟨C9_ocr_first_five_best_effort.2.2 envScanned docScanned6 rfl (by decide) (by decide),
   C9_ocr_first_five_best_effort.2.1 okVision docScanned6 docScanned6b
     (by decide) (by decide)⟩

theorem foldl_mergeExtracted (o : Oracles) (s : ClaimState) (done : List Branch) :
    ∀ init : List ExtractedDocument,
    done.foldl (fun acc b => mergeExtracted acc (branchContribution o s b)) init =
      init ++ (done.map (branchContribution o s)).flatten := by
  induction done with
  | nil => intro init; simp
  | cons b rest ih =>
    intro init
    rw [List.foldl_cons, ih]
    simp [mergeExtracted, List.append_assoc]

theorem runExtractors_extracted (o : Oracles) (done : List Branch) (s : ClaimState) :
    (runExtractors o done s).extracted_documents =
      s.extracted_documents ++ (done.map (branchContribution o s)).flatten := by
  unfold runExtractors
  exact foldl_mergeExtracted o s done s.extracted_documents

theorem perm_toFinset {α : Type} [DecidableEq α] {l1 l2 : List α} (h : l1.Perm l2) :
    l1.toFinset = l2.toFinset := by
  ext a
  simp [List.mem_toFinset, h.mem_iff]

/-- Claim C6: the accumulator merge for extracted_documents is list
concatenation, which is associative; and the final accumulated collection
is independent of branch completion order — merging the three branches'
contributions in any two orders that are permutations of one another
yields the same extractedDocuments as a set of (filename, data) pairs. -/
theorem C6_accumulator_order_independent :
    (∀ xs ys zs : List ExtractedDocument,
      mergeExtracted (mergeExtracted xs ys) zs = mergeExtracted xs (mergeExtracted ys zs)) ∧
    (∀ (o : Oracles) (s : ClaimState) (ord1 ord2 : List Branch), ord1.Perm ord2 →
      ((runExtractors o ord1 s).extracted_documents.map
          (fun e => (e.filename, e.data))).toFinset =
      ((runExtractors o ord2 s).extracted_documents.map
          (fun e => (e.filename, e.data))).toFinset) := by
  constructor
  · intro xs ys zs
    simp [mergeExtracted, List.append_assoc]
  · intro o s ord1 ord2 hperm
    have h1 : (runExtractors o ord1 s).extracted_documents.Perm
        (runExtractors o ord2 s).extracted_documents := by
      rw [runExtractors_extracted, runExtractors_extracted]
      exact ((hperm.map (branchContribution o s)).flatten).append_left s.extracted_documents
    exact perm_toFinset (h1.map (fun e => (e.filename, e.data)))

/-- Witness for C6: running the branches Bill→ID→Discharge versus
ID→Discharge→Bill on a concrete classified state yields the same
(filename, data) set. -/
theorem C6_accumulator_order_independent_witness :
    ((runExtractors oraclesOkW [Branch.billB, Branch.idB, Branch.dischargeB]
        stClassifiedW).extracted_documents.map (fun e => (e.filename, e.data))).toFinset =
    ((runExtractors oraclesOkW [Branch.idB, Branch.dischargeB, Branch.billB]
        stClassifiedW).extracted_documents.map (fun e => (e.filename, e.data))).toFinset :=
  C6_accumulator_order_independent.2 oraclesOkW stClassifiedW
    [Branch.billB, Branch.idB, Branch.dischargeB]
    [Branch.idB, Branch.dischargeB, Branch.billB] (by decide)

theorem three_filter_le (l : List ClassifiedDocument) :
    (l.filter isBillTarget).length + (l.filter isIdTarget).length +
      (l.filter isDischargeTarget).length ≤ l.length := by
  induction l with
  | nil => simp
  | cons d rest ih =>
    cases hdt : d.doc_type <;>
      simp [List.filter_cons, isBillTarget, isIdTarget, isDischargeTarget, hdt] <;>
      omega

theorem branch_map_sum (f : Branch → Nat) (done : List Branch) :
    (done.map f).sum =
      done.count .billB * f .billB + done.count .idB * f .idB +
        done.count .dischargeB * f .dischargeB := by
  induction done with
  | nil => simp
  | cons b rest ih =>
    cases b <;> simp [List.count_cons, ih] <;> ring

theorem branch_sum_le (f : Branch → Nat) (done : List Branch) (h : done.Nodup) :
    (done.map f).sum ≤ f .billB + f .idB + f .dischargeB := by
  rw [branch_map_sum]
  have h1 := List.nodup_iff_count_le_one.mp h Branch.billB
  have h2 := List.nodup_iff_count_le_one.mp h Branch.idB
  have h3 := List.nodup_iff_count_le_one.mp h Branch.dischargeB
  have e1 : done.count .billB * f .billB ≤ f .billB := by
    calc done.count .billB * f .billB ≤ 1 * f .billB := Nat.mul_le_mul_right _ h1
    _ = f .billB := one_mul _
  have e2 : done.count .idB * f .idB ≤ f .idB := by
    calc done.count .idB * f .idB ≤ 1 * f .idB := Nat.mul_le_mul_right _ h2
    _ = f .idB := one_mul _
  have e3 : done.count .dischargeB * f .dischargeB ≤ f .dischargeB := by
    calc done.count .dischargeB * f .dischargeB ≤ 1 * f .dischargeB :=
      Nat.mul_le_mul_right _ h3
    _ = f .dischargeB := one_mul _
  omega

theorem branchContribution_length (o : Oracles) (s : ClaimState) :
    (branchContribution o s .billB).length = (s.classified_docs.filter isBillTarget).length ∧
    (branchContribution o s .idB).length = (s.classified_docs.filter isIdTarget).length ∧
    (branchContribution o s .dischargeB).length =
      (s.classified_docs.filter isDischargeTarget).length := by
  refine ⟨?_, ?_, ?_⟩ <;>
    simp [branchContribution, bill_extraction_node_eq, id_extraction_node_eq,
      discharge_extraction_node_eq]

theorem branchContribution_doc_type (o : Oracles) (s : ClaimState) (b : Branch)
    (e : ExtractedDocument) (he : e ∈ branchContribution o s b) :
    e.doc_type ≠ .other ∧ e.doc_type ≠ .claim_form := by
  cases b with
  | billB =>
    rw [branchContribution, bill_extraction_node_eq, List.mem_map] at he
    obtain ⟨c, hc, rfl⟩ := he
    rw [List.mem_filter] at hc
    have hd := (extractOneBill_fields o.billExtract o.ts c).2.2
    have ht := hc.2
    simp only [isBillTarget, decide_eq_true_eq] at ht
    rw [hd]
    rcases ht with h | h <;> rw [h] <;> exact ⟨by simp, by simp⟩
  | idB =>
    rw [branchContribution, id_extraction_node_eq, List.mem_map] at he
    obtain ⟨c, hc, rfl⟩ := he
    rw [List.mem_filter] at hc
    have hd := (extractOneId_fields o.idExtract o.ts c).2.2
    have ht := hc.2
    simp only [isIdTarget, decide_eq_true_eq] at ht
    rw [hd, ht]
    exact ⟨by simp, by simp⟩
  | dischargeB =>
    rw [branchContribution, discharge_extraction_node_eq, List.mem_map] at he
    obtain ⟨c, hc, rfl⟩ := he
    rw [List.mem_filter] at hc
    have hd := (extractOneDischarge_fields o.dischargeExtract o.ts c).2.2
    have ht := hc.2
    simp only [isDischargeTarget, decide_eq_true_eq] at ht
    rw [hd, ht]
    exact ⟨by simp, by simp⟩

theorem runExtractors_bounds (o : Oracles) (done : List Branch) (hnd : done.Nodup)
    (s1 : ClaimState) (hempty : s1.extracted_documents = []) :
    (runExtractors o done s1).extracted_documents.length ≤ s1.classified_docs.length ∧
    (∀ e ∈ (runExtractors o done s1).extracted_documents,
      e.doc_type ≠ .other ∧ e.doc_type ≠ .claim_form) := by
  constructor
  · rw [runExtractors_extracted, hempty, List.nil_append, List.length_flatten]
    rw [List.map_map]
    have hsum := branch_sum_le (fun b => (branchContribution o s1 b).length) done hnd
    obtain ⟨hb, hi, hd⟩ := branchContribution_length o s1
    calc (done.map fun b => (branchContribution o s1 b).length).sum
        ≤ _ + _ + _ := hsum
    _ = (s1.classified_docs.filter isBillTarget).length +
          (s1.classified_docs.filter isIdTarget).length +
          (s1.classified_docs.filter isDischargeTarget).length := by
        dsimp only
        rw [hb, hi, hd]
    _ ≤ s1.classified_docs.length := three_filter_le s1.classified_docs
  · intro e he
    rw [runExtractors_extracted, hempty, List.nil_append, List.mem_flatten] at he
    obtain ⟨li, hli, hei⟩ := he
    rw [List.mem_map] at hli
    obtain ⟨b, _, rfl⟩ := hli
    exact branchContribution_doc_type o s1 b e hei

theorem applyClassifier_len (o : Oracles) (inputs : List DocumentInput) :
    (applyClassifier o (initState inputs)).classified_docs.length = inputs.length := by
  unfold applyClassifier classification_node initState
  exact classifyAll_fst_length o.classify inputs

/-- Claim C7: every reachable workflow state satisfies
|extracted_documents| ≤ |classified_docs| ≤ |inputs|, no extracted
document has type `other` or `claim_form` (those types are classified but
never extracted by any branch), and the validation report is present iff
the graph has reached its terminal node. -/
theorem C7_state_invariants (o : Oracles) (inputs : List DocumentInput)
    (ph : Phase) (s : ClaimState) (h : Reachable o inputs ph s) :
    s.extracted_documents.length ≤ s.classified_docs.length ∧
    s.classified_docs.length ≤ s.inputs.length ∧
    (∀ e ∈ s.extracted_documents, e.doc_type ≠ .other ∧ e.doc_type ≠ .claim_form) ∧
    (s.validation_report.isSome ↔ ph = .terminal) := by
  cases h with
  | init =>
    simp [initState]
  | classifierDone =>
    refine ⟨by simp [applyClassifier, initState], ?_, by simp [applyClassifier, initState], ?_⟩
    · rw [show (applyClassifier o (initState inputs)).inputs = inputs from rfl]
      rw [applyClassifier_len]
    · simp [applyClassifier, initState]
  | extractorsPartial done hnd =>
    have hb := runExtractors_bounds o done hnd (applyClassifier o (initState inputs)) rfl
    refine ⟨hb.1, ?_, hb.2, ?_⟩
    · rw [show (runExtractors o done (applyClassifier o (initState inputs))).classified_docs =
            (applyClassifier o (initState inputs)).classified_docs from rfl,
          show (runExtractors o done (applyClassifier o (initState inputs))).inputs =
            inputs from rfl]
      rw [applyClassifier_len]
    · simp only [show (runExtractors o done
          (applyClassifier o (initState inputs))).validation_report = none from rfl]
      simp
  | validatorDone order hperm =>
    have hnd : order.Nodup := hperm.nodup_iff.mpr (by decide)
    have hb := runExtractors_bounds o order hnd (applyClassifier o (initState inputs)) rfl
    refine ⟨hb.1, ?_, hb.2, ?_⟩
    · rw [show (applyValidator o (runExtractors o order
            (applyClassifier o (initState inputs)))).classified_docs =
            (applyClassifier o (initState inputs)).classified_docs from rfl,
          show (applyValidator o (runExtractors o order
            (applyClassifier o (initState inputs)))).inputs = inputs from rfl]
      rw [applyClassifier_len]
    · simp [applyValidator]

/-- Witness for C7: the invariants hold at the concrete terminal state
the workflow reaches on one sample input under succeeding oracles. -/
theorem C7_state_invariants_witness :
    reachedTerminalW.extracted_documents.length ≤ reachedTerminalW.classified_docs.length ∧
    reachedTerminalW.classified_docs.length ≤ reachedTerminalW.inputs.length ∧
    (∀ e ∈ reachedTerminalW.extracted_documents,
      e.doc_type ≠ .other ∧ e.doc_type ≠ .claim_form) ∧
    (reachedTerminalW.validation_report.isSome ↔ Phase.terminal = Phase.terminal) :=
  C7_state_invariants oraclesOkW [docInW] .terminal reachedTerminalW
    (Reachable.validatorDone [Branch.billB, Branch.idB, Branch.dischargeB] (by decide))

end SureCheck
